import Mathlib

/-!
Verification of the Feature Class Export Tool (`gui.py`).

The embedding models the export pipeline of `gui.py`:
`validate_feature_class`, `serialize_feature` and `export_feature_class`,
together with the Python library behaviour those functions rely on
(dict insertion order, `datetime.isoformat`, `datetime.strftime`,
`os.path.join`, `csv.DictWriter`, `json.dump`).  Effectful calls
(`arcpy.Exists`, `arcpy.ListFields`, `os.makedirs`, `arcpy.da.SearchCursor`,
file writes) are supplied by an explicit environment and every external
call is recorded in an event trace, so that claims about "no I/O before
the failure" are statements about the trace.
-/

namespace FCExport

/-! ## Python datetime values

`datetime.now()` yields microsecond precision; `strftime('%Y%m%d_%H%M%S')`
formats only down to whole seconds, and `isoformat()` prints the
microseconds only when they are nonzero. -/

structure PyDateTime where
  year : Nat
  month : Nat
  day : Nat
  hour : Nat
  minute : Nat
  second : Nat
  microsecond : Nat
  deriving DecidableEq, Repr

/-- Bounds guaranteed by Python's `datetime` type (year at most 9999,
calendar fields in range, microseconds below one million). -/
def PyDateTime.InRange (t : PyDateTime) : Prop :=
  t.year ≤ 9999 ∧ 1 ≤ t.month ∧ t.month ≤ 12 ∧ 1 ≤ t.day ∧ t.day ≤ 31 ∧
    t.hour ≤ 23 ∧ t.minute ≤ 59 ∧ t.second ≤ 59 ∧ t.microsecond < 1000000

instance (t : PyDateTime) : Decidable t.InRange := by
  unfold PyDateTime.InRange; infer_instance

/-- Truncation to whole seconds: the part of a timestamp that
`strftime('%Y%m%d_%H%M%S')` can see. -/
def PyDateTime.truncSec (t : PyDateTime) : PyDateTime :=
  { t with microsecond := 0 }

/-- The decimal digit character for `n % 10`. -/
def digitChar (n : Nat) : Char := Char.ofNat (48 + n % 10)

/-- Two-digit zero-padded decimal rendering (as characters), the behaviour
of `%m`, `%d`, `%H`, `%M`, `%S` for in-range values. -/
def pad2 (n : Nat) : List Char := [digitChar (n / 10), digitChar n]

/-- Four-digit zero-padded decimal rendering, the behaviour of `%Y` for
years up to 9999. -/
def pad4 (n : Nat) : List Char :=
  [digitChar (n / 1000), digitChar (n / 100), digitChar (n / 10), digitChar n]

/-- Six-digit zero-padded decimal rendering, used by `isoformat` for the
microsecond part. -/
def pad6 (n : Nat) : List Char :=
  [digitChar (n / 100000), digitChar (n / 10000), digitChar (n / 1000),
    digitChar (n / 100), digitChar (n / 10), digitChar n]

/-- `datetime.strftime('%Y%m%d_%H%M%S')`. -/
def strftimeYmdHMS (t : PyDateTime) : String :=
  String.mk (pad4 t.year ++ pad2 t.month ++ pad2 t.day ++ ['_'] ++
    pad2 t.hour ++ pad2 t.minute ++ pad2 t.second)

/-- `datetime.isoformat()`: `YYYY-MM-DDTHH:MM:SS`, with `.ffffff` appended
exactly when the microsecond field is nonzero. -/
def isoformat (t : PyDateTime) : String :=
  String.mk (pad4 t.year ++ ['-'] ++ pad2 t.month ++ ['-'] ++ pad2 t.day ++
    ['T'] ++ pad2 t.hour ++ [':'] ++ pad2 t.minute ++ [':'] ++ pad2 t.second ++
    (if t.microsecond = 0 then [] else ['.'] ++ pad6 t.microsecond))

/-! ## Geometry

A native geometry handle carries a spatial reference id; `projectAs`
reprojects it and `__geo_interface__` converts it into the portable
type/coordinates structure.  Coordinate scalars are abstracted as
integers; no claim inspects coordinate arithmetic. -/

structure NativeGeom where
  srid : Nat
  gtype : String
  coords : List (Int × Int)
  deriving DecidableEq, Repr

/-- The portable geometry structure produced by `__geo_interface__`. -/
structure Geometry where
  gtype : String
  coords : List (Int × Int)
  deriving DecidableEq, Repr

/-- `geometry.projectAs(arcpy.SpatialReference(4326))`. -/
def projectAs4326 (g : NativeGeom) : NativeGeom :=
  { g with srid := 4326 }

/-- `.__geo_interface__` on a (projected) native geometry. -/
def geoInterface (g : NativeGeom) : Geometry :=
  ⟨g.gtype, g.coords⟩

/-! ## Field values and records

A record (`feature` in `gui.py`) is a Python dict from field name to
value; Python dicts preserve insertion order and an assignment to an
existing key updates the value in place, keeping the key's position. -/

inductive Value where
  | str (s : String)
  | num (n : Int)
  | boolean (b : Bool)
  | none
  | dt (t : PyDateTime)
  | geo (g : Geometry)
  deriving DecidableEq, Repr

/-- A record: ordered association list from field name to value, the
embedding of a Python dict. -/
abbrev Record : Type := List (String × Value)

/-- Python dict assignment `d[k] = v`: update in place when the key is
present (keeping its position), append otherwise. -/
def dictInsert (d : Record) (k : String) (v : Value) : Record :=
  if (d.map Prod.fst).contains k then
    d.map (fun kv => if kv.1 = k then (k, v) else kv)
  else
    d ++ [(k, v)]

/-- A Python dict comprehension over a list of key/value pairs: repeated
dict assignment starting from the empty dict. -/
def pyDictOfPairs (ps : List (String × Value)) : Record :=
  ps.foldl (fun d kv => dictInsert d kv.1 kv.2) []

/-- The per-value conversion inside `serialize_feature`: a `datetime`
value becomes its ISO-8601 string, everything else is untouched. -/
def serializeValue : Value → Value
  | .dt t => .str (isoformat t)
  | v => v

/-- `serialize_feature` (gui.py lines 18-23): for every key whose value is
a `datetime`, replace the value by `value.isoformat()`; the loop writes
through `feature[key] = ...`, so this is the content of the dict both as
returned and as left in the caller's variable. -/
def serialize_feature (feature : Record) : Record :=
  feature.map (fun kv => (kv.1, serializeValue kv.2))

/-- The call-level view of `serialize_feature`: first component the
returned record, second component the state of the argument after the
call.  Because the Python function assigns into `feature` in place and
then returns `feature`, both components are the converted record. -/
def serialize_feature_call (feature : Record) : Record × Record :=
  (serialize_feature feature, serialize_feature feature)

/-! ## Cursor rows and feature construction

`export_feature_class` requests the columns `fields = ListFields(...) +
["SHAPE@"]`; each cursor row is the tuple of field values (`row[:-1]`)
followed by the geometry handle (`row[-1]`).  A row is modelled by that
split directly. -/

structure Row where
  vals : List Value
  geom : Option NativeGeom
  deriving DecidableEq, Repr

/-- The geometry value stored under the `"geometry"` key (gui.py lines
50-53): `None` passes through, otherwise the handle is reprojected to
EPSG:4326 and converted through `__geo_interface__`. -/
def geomValue : Option NativeGeom → Value
  | Option.none => .none
  | some g => .geo (geoInterface (projectAs4326 g))

/-- Lines 49-53: `feature = {field: value for field, value in
zip(fields[:-1], row[:-1])}` followed by `feature["geometry"] = geometry`.
`schemaFields` is `fields[:-1]`, i.e. the `ListFields` names. -/
def buildFeature (schemaFields : List String) (row : Row) : Record :=
  dictInsert (pyDictOfPairs (schemaFields.zip row.vals)) "geometry"
    (geomValue row.geom)

/-- One row of the accumulated `features` list (line 54):
`serialize_feature(feature)`. -/
def normalizeRecord (schemaFields : List String) (row : Row) : Record :=
  serialize_feature (buildFeature schemaFields row)

/-- The full `features` list accumulated by the cursor loop, in cursor
order. -/
def pipelineFeatures (schemaFields : List String) (rows : List Row) : List Record :=
  rows.map (normalizeRecord schemaFields)

/-! ## JSON encoders

`json.dump` serializes Python values structurally; the embedding keeps
the JSON document as a tree (string rendering, indentation and UTF-8 are
not inspected by any claim about JSON/GeoJSON). -/

inductive Json where
  | jnull
  | jstr (s : String)
  | jnum (n : Int)
  | jbool (b : Bool)
  | jarr (xs : List Json)
  | jobj (fields : List (String × Json))
  deriving Repr

/-- JSON image of a geometry structure. -/
def geometryToJson (g : Geometry) : Json :=
  .jobj [("type", .jstr g.gtype),
    ("coordinates", .jarr (g.coords.map (fun c => .jarr [.jnum c.1, .jnum c.2])))]

/-- JSON image of a record value. -/
def valueToJson : Value → Json
  | .str s => .jstr s
  | .num n => .jnum n
  | .boolean b => .jbool b
  | .none => .jnull
  | .dt t => .jstr (isoformat t)
  | .geo g => geometryToJson g

/-- JSON image of a record: object with the record's keys in order. -/
def recordToJson (r : Record) : Json :=
  .jobj (r.map (fun kv => (kv.1, valueToJson kv.2)))

/-- The `json` branch (lines 76-78): the document dumped is the plain
list of features. -/
def jsonEncode (features : List Record) : Json :=
  .jarr (features.map recordToJson)

/-- One GeoJSON `Feature` (lines 65-69): `geometry` is
`feature["geometry"]` and `properties` keeps every other key in the
record's order. -/
def featureToJson (f : Record) : Json :=
  .jobj [("type", .jstr "Feature"),
    ("geometry", valueToJson ((f.lookup "geometry").getD .none)),
    ("properties", .jobj ((f.filter (fun kv => kv.1 ≠ "geometry")).map
      (fun kv => (kv.1, valueToJson kv.2))))]

/-- The `geojson` branch (lines 61-74): a `FeatureCollection` whose
`features` array lists the records in input order. -/
def geojsonEncode (features : List Record) : Json :=
  .jobj [("type", .jstr "FeatureCollection"),
    ("features", .jarr (features.map featureToJson))]

/-! ## CSV encoder

Lines 80-86: `csv.DictWriter` with `fieldnames = features[0].keys()`,
header row then one row per record, written with encoding `utf-8-sig`
(UTF-8 preceded by a byte-order mark). -/

/-- `features[0].keys()`: the column order of the CSV output. -/
def csvFieldnames (features : List Record) : List String :=
  (features.headD []).map Prod.fst

/-- `DictWriter.writerow`: the values of one record listed in fieldname
order (a missing key yields the writer's default empty value). -/
def csvRowCells (fieldnames : List String) (r : Record) : List Value :=
  fieldnames.map (fun k => (r.lookup k).getD .none)

/-- The data rows of the CSV output, one per record in input order. -/
def csvDataRows (features : List Record) : List (List Value) :=
  features.map (csvRowCells (csvFieldnames features))

/-- Python `str()` of a cell as the `csv` module writes it (`None`
becomes the empty field). -/
def pyStr : Value → String
  | .str s => s
  | .num n => toString n
  | .boolean b => if b then "True" else "False"
  | .none => ""
  | .dt t => isoformat t
  | .geo g => "\x7b'type': '" ++ g.gtype ++ "', 'coordinates': " ++
      toString (repr g.coords) ++ "\x7d"

/-- Minimal CSV quoting: a field containing a delimiter, quote or line
break is wrapped in double quotes with inner quotes doubled. -/
def csvQuoteField (s : String) : String :=
  if s.any (fun c => c = ',' ∨ c = '"' ∨ c = '\r' ∨ c = '\n') then
    "\"" ++ String.join (s.data.map (fun c =>
      if c = '"' then "\"\"" else String.mk [c])) ++ "\""
  else s

/-- One physical CSV line (the `csv` module terminates rows with CRLF). -/
def csvLine (cells : List String) : String :=
  String.intercalate "," (cells.map csvQuoteField) ++ "\r\n"

/-- The CSV text: header line then the data rows. -/
def csvText (features : List Record) : String :=
  String.join ((csvLine (csvFieldnames features)) ::
    (csvDataRows features).map (fun row => csvLine (row.map pyStr)))

/-- The UTF-8 byte-order mark written by encoding `utf-8-sig`. -/
def bomBytes : List UInt8 := [0xEF, 0xBB, 0xBF]

/-- The bytes of the CSV output file: byte-order mark then the UTF-8
encoded CSV text. -/
def csvFileBytes (features : List Record) : List UInt8 :=
  bomBytes ++ (csvText features).toUTF8.toList

/-! ## Paths and output filenames -/

/-- `os.path.join` for two components.  Separator conventions (the tool
may run with either kind of path) do not affect any claim; the posix
rules are used: an absolute second component replaces the first, an
empty or separator-terminated first component is concatenated directly.
-/
def pyJoin (a b : String) : String :=
  if b.startsWith "/" then b
  else if a = "" ∨ a.endsWith "/" then a ++ b
  else a ++ "/" ++ b

/-- `fc_name.replace('.', '_')`: single-character replacement. -/
def replaceDots (s : String) : String :=
  s.map (fun c => if c = '.' then '_' else c)

/-- Line 33: the derived default filename
`f"{fc_name.replace('.', '_')}_{datetime.now().strftime('%Y%m%d_%H%M%S')}"`.
-/
def derived_filename (fc_name : String) (now : PyDateTime) : String :=
  replaceDots fc_name ++ "_" ++ strftimeYmdHMS now

/-- Lines 31-33: `if not custom_filename:` — both `None` and the empty
string trigger derivation. -/
def resolvedFilename (custom : Option String) (fc_name : String)
    (now : PyDateTime) : String :=
  match custom with
  | Option.none => derived_filename fc_name now
  | some s => if s.isEmpty then derived_filename fc_name now else s

/-- An export request as passed to `export_feature_class`. -/
structure Request where
  fc_path : String
  fc_name : String
  export_type : String
  output_dir : String
  custom_filename : Option String
  deriving DecidableEq, Repr

/-- Line 35: `output_file = os.path.join(output_dir,
f"{custom_filename}.{export_type}")`. -/
def output_file_for (req : Request) (now : PyDateTime) : String :=
  pyJoin req.output_dir
    (resolvedFilename req.custom_filename req.fc_name now ++ "." ++ req.export_type)

/-! ## Environment, events and outcomes

External calls are supplied by an environment; a fallible call returning
`Except.error m` models the call raising an exception with message `m`.
Every external call made by `export_feature_class` is recorded in an
event trace in execution order. -/

structure Env where
  arcpyExists : String → Bool
  pathExists : String → Bool
  makedirs : String → Except String Unit
  listFields : String → Except String (List String)
  searchCursor : String → Except String (List Row)
  writeFile : String → Except String Unit
  now : PyDateTime

/-- The document handed to the file write, per format branch. -/
inductive OutputContent where
  | jsonDoc (j : Json)
  | csvDoc (bytes : List UInt8)

inductive Event where
  | existsCheck (path : String)
  | dirCheck (path : String)
  | makedirsCall (path : String)
  | listFieldsCall (path : String)
  | cursorOpen (path : String)
  | fileWrite (path : String) (content : OutputContent)

/-- The observable outcome of one `export_feature_class` call.
`errorCaught` is the `except` branch (status `Error: <msg>`); `uncaught`
is an exception escaping the function to its caller. -/
inductive Outcome where
  | notFound (path : String)
  | noData
  | success (status : String) (path : String)
  | errorCaught (msg : String)
  | uncaught (msg : String)

/-- `validate_feature_class` (lines 11-16): true exactly when
`arcpy.Exists` holds for the path (on false it shows an error dialog and
returns `False`). -/
def validate_feature_class (env : Env) (fc : String) : Bool :=
  env.arcpyExists fc

/-- The success status string set on line 89. -/
def successStatus (export_type output_file : String) : String :=
  "Export successful: " ++ export_type.toUpper ++ " saved to " ++ output_file

/-- The format dispatch and write (lines 61-95).  Each recognised format
opens `output_file` and writes the encoded document; a failure of the
write is caught by the surrounding `try`.  An unrecognised format falls
through every branch without writing and still reaches the success
reporting on lines 88-95. -/
def exportWrite (env : Env) (req : Request) (output_file : String)
    (features : List Record) (ev : List Event) : List Event × Outcome :=
  if req.export_type = "geojson" then
    match env.writeFile output_file with
    | .error m => (ev, .errorCaught m)
    | .ok _ =>
      (ev ++ [.fileWrite output_file (.jsonDoc (geojsonEncode features))],
        .success (successStatus req.export_type output_file) output_file)
  else if req.export_type = "json" then
    match env.writeFile output_file with
    | .error m => (ev, .errorCaught m)
    | .ok _ =>
      (ev ++ [.fileWrite output_file (.jsonDoc (jsonEncode features))],
        .success (successStatus req.export_type output_file) output_file)
  else if req.export_type = "csv" then
    match env.writeFile output_file with
    | .error m => (ev, .errorCaught m)
    | .ok _ =>
      (ev ++ [.fileWrite output_file (.csvDoc (csvFileBytes features))],
        .success (successStatus req.export_type output_file) output_file)
  else
    (ev, .success (successStatus req.export_type output_file) output_file)

/-- The `try` block (lines 44-95): open the cursor, accumulate the
normalized features, stop with the no-data message when empty, otherwise
encode and write.  Any exception raised inside — cursor iteration or the
file write — is caught by the `except` clauses on lines 97-102. -/
def exportTryBlock (env : Env) (req : Request)
    (full_fc_path output_file : String) (fields : List String)
    (ev : List Event) : List Event × Outcome :=
  let ev1 := ev ++ [.cursorOpen full_fc_path]
  match env.searchCursor full_fc_path with
  | .error m => (ev1, .errorCaught m)
  | .ok rows =>
    let features := pipelineFeatures fields.dropLast rows
    if features.isEmpty then (ev1, .noData)
    else exportWrite env req output_file features ev1

/-- `export_feature_class` (lines 25-102).  Order of effects as in the
source: existence check on the joined source path (early return on
failure), output filename resolution, output-directory existence check
and `os.makedirs` (NOT inside the `try`), `arcpy.ListFields` (NOT inside
the `try`), then the guarded cursor/encode/write block. -/
def export_feature_class (env : Env) (req : Request) : List Event × Outcome :=
  let full_fc_path := pyJoin req.fc_path req.fc_name
  let ev0 : List Event := [.existsCheck full_fc_path]
  if validate_feature_class env full_fc_path = false then
    (ev0, .notFound full_fc_path)
  else
    let output_file := output_file_for req env.now
    let dirStep : List Event × Except String Unit :=
      if env.pathExists req.output_dir then
        (ev0 ++ [.dirCheck req.output_dir], .ok ())
      else
        (ev0 ++ [.dirCheck req.output_dir, .makedirsCall req.output_dir],
          env.makedirs req.output_dir)
    match dirStep with
    | (ev2, .error m) => (ev2, .uncaught m)
    | (ev2, .ok _) =>
      let ev3 := ev2 ++ [.listFieldsCall full_fc_path]
      match env.listFields full_fc_path with
      | .error m => (ev3, .uncaught m)
      | .ok names =>
        exportTryBlock env req full_fc_path output_file
          (names ++ ["SHAPE@"]) ev3

/-! ## Trace observations and concrete fixtures -/

def isFileWriteEv : Event → Bool
  | .fileWrite _ _ => true
  | _ => false

def isMakedirsEv : Event → Bool
  | .makedirsCall _ => true
  | _ => false

def isListFieldsEv : Event → Bool
  | .listFieldsCall _ => true
  | _ => false

/-- Whether a trace contains a file write. -/
def writesFile (ev : List Event) : Bool := ev.any isFileWriteEv

/-- Whether a trace contains a directory creation. -/
def makesDir (ev : List Event) : Bool := ev.any isMakedirsEv

/-- Whether a trace contains a schema enumeration. -/
def readsSchema (ev : List Event) : Bool := ev.any isListFieldsEv

/-- The GeoJSON `geometry` member as the spec describes it: the record's
normalized geometry, or JSON null when the record has none. -/
def geomJson : Option NativeGeom → Json
  | Option.none => .jnull
  | some g => geometryToJson (geoInterface (projectAs4326 g))

/-- A concrete timestamp used by witnesses. -/
def t2024 : PyDateTime := ⟨2024, 1, 1, 0, 0, 0, 0⟩

/-- The same wall-clock second as `t2024`, one microsecond later. -/
def t2024' : PyDateTime := ⟨2024, 1, 1, 0, 0, 0, 1⟩

/-- The one-record source of the spec's §8 scenario. -/
def rowAlpha : Row :=
  ⟨[.num 1, .str "Alpha", .dt t2024], some ⟨102100, "Point", [(51, 25)]⟩⟩

/-- Environment whose source never exists. -/
def envAbsent : Env :=
  { arcpyExists := fun _ => false, pathExists := fun _ => true,
    makedirs := fun _ => .ok (), listFields := fun _ => .ok [],
    searchCursor := fun _ => .ok [], writeFile := fun _ => .ok (),
    now := t2024 }

/-- Environment where the output directory is missing and `os.makedirs`
raises. -/
def envMkdirFail : Env :=
  { arcpyExists := fun _ => true, pathExists := fun _ => false,
    makedirs := fun _ => .error "disk full",
    listFields := fun _ => .ok ["id", "name", "created"],
    searchCursor := fun _ => .ok [rowAlpha],
    writeFile := fun _ => .ok (), now := t2024 }

/-- Environment where the search cursor raises mid-iteration. -/
def envCursorFail : Env :=
  { arcpyExists := fun _ => true, pathExists := fun _ => true,
    makedirs := fun _ => .ok (),
    listFields := fun _ => .ok ["id", "name", "created"],
    searchCursor := fun _ => .error "cursor broke",
    writeFile := fun _ => .ok (), now := t2024 }

/-- Fully working environment over the §8 scenario source. -/
def envOk : Env :=
  { arcpyExists := fun _ => true, pathExists := fun _ => true,
    makedirs := fun _ => .ok (),
    listFields := fun _ => .ok ["id", "name", "created"],
    searchCursor := fun _ => .ok [rowAlpha],
    writeFile := fun _ => .ok (), now := t2024 }

/-- A request with all four required fields blank. -/
def reqBlank : Request := ⟨"", "", "", "", some ""⟩

/-- An ordinary CSV request. -/
def reqCsv : Request := ⟨"loc", "TOPO.QatarLandmark", "csv", "out", Option.none⟩

/-- A request with an unrecognised output format. -/
def reqXml : Request := ⟨"loc", "fc", "xml", "out", some "file"⟩

/-! ## Helper lemmas: decimal formatting -/

theorem digitChar_toNat (n : Nat) : (digitChar n).toNat = 48 + n % 10 := by
  have h : (48 + n % 10).isValidChar := by
    left
    have := Nat.mod_lt n (show 0 < 10 by decide)
    omega
  simp [digitChar, Char.ofNat, h]
  rfl

theorem digitChar_inj {a b : Nat} (h : digitChar a = digitChar b) :
    a % 10 = b % 10 := by
  have := congrArg Char.toNat h
  rw [digitChar_toNat, digitChar_toNat] at this
  omega

/-- Equal `%Y%m%d_%H%M%S` strings of in-range timestamps force equal
timestamps up to whole seconds. -/
theorem strftime_inj {t1 t2 : PyDateTime}
    (h1 : t1.InRange) (h2 : t2.InRange)
    (h : strftimeYmdHMS t1 = strftimeYmdHMS t2) :
    t1.truncSec = t2.truncSec := by
  have hd := congrArg String.data h
  simp only [strftimeYmdHMS, pad4, pad2, List.cons_append, List.nil_append,
    List.cons.injEq] at hd
  obtain ⟨hy3, hy2, hy1, hy0, hm1, hm0, hd1, hd0, _, hh1, hh0, hmi1, hmi0,
    hs1, hs0, -⟩ := hd
  obtain ⟨hA, hB, hC, hD, hE, hF, hG, hH, hI⟩ := h1
  obtain ⟨hA2, hB2, hC2, hD2, hE2, hF2, hG2, hH2, hI2⟩ := h2
  have ey3 := digitChar_inj hy3
  have ey2 := digitChar_inj hy2
  have ey1 := digitChar_inj hy1
  have ey0 := digitChar_inj hy0
  have em1 := digitChar_inj hm1
  have em0 := digitChar_inj hm0
  have ed1 := digitChar_inj hd1
  have ed0 := digitChar_inj hd0
  have eh1 := digitChar_inj hh1
  have eh0 := digitChar_inj hh0
  have emi1 := digitChar_inj hmi1
  have emi0 := digitChar_inj hmi0
  have es1 := digitChar_inj hs1
  have es0 := digitChar_inj hs0
  unfold PyDateTime.truncSec
  obtain ⟨y1, mo1, d1, ho1, mi1, s1, u1⟩ := t1
  obtain ⟨y2, mo2, d2, ho2, mi2, s2, u2⟩ := t2
  simp_all only [PyDateTime.mk.injEq, and_true]
  refine ⟨?_, ?_, ?_, ?_, ?_, ?_⟩ <;> omega

theorem append_cancel_right_of_length {α : Type} {p1 p2 s1 s2 : List α}
    (h : p1 ++ s1 = p2 ++ s2) (hl : s1.length = s2.length) : s1 = s2 := by
  have htot := congrArg List.length h
  simp only [List.length_append] at htot
  exact (List.append_inj h (by omega)).2

theorem strftime_data_length (t : PyDateTime) :
    (strftimeYmdHMS t).data.length = 15 := by
  simp [strftimeYmdHMS, pad4, pad2]

theorem strftime_length (t : PyDateTime) :
    (strftimeYmdHMS t).length = 15 := by
  simp [strftimeYmdHMS, String.length, pad4, pad2]

/-- Colliding derived filenames force equal timestamps up to whole
seconds, for any pair of source identifiers: the timestamp occupies the
fixed-width 15-character tail of the derived name. -/
theorem derived_filename_trunc_eq {n1 n2 : String} {t1 t2 : PyDateTime}
    (h1 : t1.InRange) (h2 : t2.InRange)
    (h : derived_filename n1 t1 = derived_filename n2 t2) :
    t1.truncSec = t2.truncSec := by
  apply strftime_inj h1 h2
  have hd := congrArg String.data h
  simp only [derived_filename, String.data_append] at hd
  rw [List.append_assoc, List.append_assoc] at hd
  have hs := append_cancel_right_of_length hd
    (by simp [List.length_append, strftime_data_length, strftime_length])
  have h2' := append_cancel_right_of_length hs
    (by rw [strftime_data_length, strftime_data_length])
  exact String.ext h2'

/-! ## Helper lemmas: dict and record structure -/

theorem dictInsert_of_not_mem {d : Record} {k : String} {v : Value}
    (h : k ∉ d.map Prod.fst) : dictInsert d k v = d ++ [(k, v)] := by
  unfold dictInsert
  rw [if_neg]
  simpa using h

theorem foldl_dictInsert_eq_append (ps : List (String × Value)) :
    ∀ (d : Record), (∀ k ∈ ps.map Prod.fst, k ∉ d.map Prod.fst) →
    (ps.map Prod.fst).Nodup →
    ps.foldl (fun d kv => dictInsert d kv.1 kv.2) d = d ++ ps := by
  induction ps with
  | nil => intro d _ _; simp
  | cons kv rest ih =>
    intro d hdisj hnd
    simp only [List.map_cons, List.nodup_cons] at hnd
    simp only [List.foldl_cons]
    rw [dictInsert_of_not_mem (hdisj kv.1 (by simp))]
    rw [ih (d ++ [kv]) ?hd ?hn]
    · simp
    case hd =>
      intro k hk
      simp only [List.map_append, List.mem_append]
      push_neg
      refine ⟨hdisj k (by simp [hk]), ?_⟩
      simp only [List.map_cons, List.map_nil, List.mem_singleton]
      intro hkk
      exact hnd.1 (hkk ▸ hk)
    case hn => exact hnd.2

theorem pyDictOfPairs_eq_self {ps : List (String × Value)}
    (h : (ps.map Prod.fst).Nodup) : pyDictOfPairs ps = ps := by
  unfold pyDictOfPairs
  rw [foldl_dictInsert_eq_append ps [] (by simp) h]
  simp

theorem map_fst_zip_eq_take (l1 : List String) (l2 : List Value) :
    (l1.zip l2).map Prod.fst = l1.take l2.length := by
  induction l1 generalizing l2 with
  | nil => simp
  | cons a l ih =>
    cases l2 with
    | nil => simp
    | cons b m => simp [ih]

/-- With pairwise-distinct field names none of which is `"geometry"`,
the dict built on lines 49-53 is the zipped field/value pairs followed
by the geometry entry. -/
theorem buildFeature_eq {fieldNames : List String} {row : Row}
    (hnd : fieldNames.Nodup) (hg : "geometry" ∉ fieldNames) :
    buildFeature fieldNames row =
      fieldNames.zip row.vals ++ [("geometry", geomValue row.geom)] := by
  unfold buildFeature
  have hkeys : (fieldNames.zip row.vals).map Prod.fst =
      fieldNames.take row.vals.length := map_fst_zip_eq_take _ _
  rw [pyDictOfPairs_eq_self ?hn, dictInsert_of_not_mem ?hm]
  case hn =>
    rw [hkeys]
    exact hnd.sublist (List.take_sublist _ _)
  case hm =>
    rw [hkeys]
    intro hmem
    exact hg (List.mem_of_mem_take hmem)

theorem serializeValue_geomValue (g : Option NativeGeom) :
    serializeValue (geomValue g) = geomValue g := by
  cases g <;> rfl

theorem normalizeRecord_eq {fieldNames : List String} {row : Row}
    (hnd : fieldNames.Nodup) (hg : "geometry" ∉ fieldNames) :
    normalizeRecord fieldNames row =
      (fieldNames.zip row.vals).map (fun fv => (fv.1, serializeValue fv.2)) ++
        [("geometry", geomValue row.geom)] := by
  unfold normalizeRecord serialize_feature
  rw [buildFeature_eq hnd hg]
  simp [serializeValue_geomValue]

theorem normalizeRecord_keys {fieldNames : List String} {row : Row}
    (hnd : fieldNames.Nodup) (hg : "geometry" ∉ fieldNames)
    (hlen : row.vals.length = fieldNames.length) :
    (normalizeRecord fieldNames row).map Prod.fst =
      fieldNames ++ ["geometry"] := by
  have hfuse : (List.map (fun fv : String × Value => (fv.1, serializeValue fv.2))
      (fieldNames.zip row.vals)).map Prod.fst =
      (fieldNames.zip row.vals).map Prod.fst := by
    simp
  rw [normalizeRecord_eq hnd hg, List.map_append, hfuse, map_fst_zip_eq_take,
    hlen, List.take_length]
  rfl

theorem lookup_append_of_not_mem {ps qs : Record} {k : String}
    (h : k ∉ ps.map Prod.fst) : (ps ++ qs).lookup k = qs.lookup k := by
  induction ps with
  | nil => rfl
  | cons kv rest ih =>
    simp only [List.map_cons, List.mem_cons, not_or] at h
    have hb : (k == kv.1) = false := by simpa using h.1
    simp only [List.cons_append, List.lookup, hb]
    exact ih h.2

theorem map_lookup_keys {r : Record} (h : (r.map Prod.fst).Nodup) :
    (r.map Prod.fst).map (fun k => ((r.lookup k).getD Value.none)) =
      r.map Prod.snd := by
  induction r with
  | nil => rfl
  | cons kv rest ih =>
    simp only [List.map_cons, List.nodup_cons] at h ⊢
    congr 1
    · simp [List.lookup]
    · have hc : ∀ k ∈ rest.map Prod.fst,
          (List.lookup k (kv :: rest)).getD Value.none =
            (List.lookup k rest).getD Value.none := by
        intro k hk
        have hne : k ≠ kv.1 := fun hkk => h.1 (hkk ▸ hk)
        have hb : (k == kv.1) = false := by simpa using hne
        simp [List.lookup, hb]
      rw [List.map_congr_left hc]
      exact ih h.2

theorem csvRowCells_self {r : Record} (h : (r.map Prod.fst).Nodup) :
    csvRowCells (r.map Prod.fst) r = r.map Prod.snd :=
  map_lookup_keys h

theorem filter_ne_geom {ps : Record} {gv : Value}
    (h : "geometry" ∉ ps.map Prod.fst) :
    (ps ++ [("geometry", gv)]).filter (fun kv => kv.1 ≠ "geometry") = ps := by
  rw [List.filter_append]
  have h1 : ps.filter (fun kv => decide (kv.1 ≠ "geometry")) = ps := by
    apply List.filter_eq_self.mpr
    intro kv hkv
    simp only [decide_eq_true_eq]
    intro hq
    exact h (hq ▸ List.mem_map_of_mem Prod.fst hkv)
  rw [h1]
  simp

/-! ## Helper lemmas: orchestrator stages and encoder shapes -/

/-- A failed existence check returns immediately: the trace holds the
single `arcpy.Exists` call and the outcome is the not-found report. -/
theorem export_early_return (env : Env) (req : Request)
    (h : env.arcpyExists (pyJoin req.fc_path req.fc_name) = false) :
    export_feature_class env req =
      ([.existsCheck (pyJoin req.fc_path req.fc_name)],
        .notFound (pyJoin req.fc_path req.fc_name)) := by
  simp [export_feature_class, validate_feature_class, h]

theorem valueToJson_geomValue (g : Option NativeGeom) :
    valueToJson (geomValue g) = geomJson g := by
  cases g <;> rfl

theorem zipmap_keys (fieldNames : List String) (row : Row) :
    (List.map (fun fv : String × Value => (fv.1, serializeValue fv.2))
      (fieldNames.zip row.vals)).map Prod.fst =
      fieldNames.take row.vals.length := by
  have hfuse : (List.map (fun fv : String × Value => (fv.1, serializeValue fv.2))
      (fieldNames.zip row.vals)).map Prod.fst =
      (fieldNames.zip row.vals).map Prod.fst := by simp
  rw [hfuse, map_fst_zip_eq_take]

/-- One GeoJSON feature built from a normalized record: geometry member
from the record's `geometry` entry, properties from all other keys in
order. -/
theorem featureToJson_normalized {fieldNames : List String} {row : Row}
    (hnd : fieldNames.Nodup) (hg : "geometry" ∉ fieldNames) :
    featureToJson (normalizeRecord fieldNames row) =
      .jobj [("type", .jstr "Feature"),
        ("geometry", geomJson row.geom),
        ("properties", .jobj ((fieldNames.zip row.vals).map
          (fun fv => (fv.1, valueToJson (serializeValue fv.2)))))] := by
  have hkg : "geometry" ∉ (List.map (fun fv : String × Value =>
      (fv.1, serializeValue fv.2)) (fieldNames.zip row.vals)).map Prod.fst := by
    rw [zipmap_keys]
    intro hmem
    exact hg (List.mem_of_mem_take hmem)
  rw [normalizeRecord_eq hnd hg]
  unfold featureToJson
  rw [lookup_append_of_not_mem hkg, filter_ne_geom hkg]
  simp [List.lookup, valueToJson_geomValue, List.map_map, Function.comp]

/-- One CSV data row of a normalized record, listed in header order:
the serialized raw values followed by the geometry cell. -/
theorem csvRow_normalized {fieldNames : List String} {row : Row}
    (hnd : fieldNames.Nodup) (hg : "geometry" ∉ fieldNames)
    (hlen : row.vals.length = fieldNames.length) :
    csvRowCells (fieldNames ++ ["geometry"]) (normalizeRecord fieldNames row) =
      row.vals.map serializeValue ++ [geomValue row.geom] := by
  have hkeys := normalizeRecord_keys hnd hg hlen
  have hndk : ((normalizeRecord fieldNames row).map Prod.fst).Nodup := by
    rw [hkeys]
    rw [List.nodup_append]
    refine ⟨hnd, List.nodup_singleton _, ?_⟩
    intro k hk hk2
    simp only [List.mem_singleton] at hk2
    exact hg (hk2 ▸ hk)
  have h1 : csvRowCells (fieldNames ++ ["geometry"])
      (normalizeRecord fieldNames row) =
      (normalizeRecord fieldNames row).map Prod.snd := by
    rw [← hkeys]
    exact csvRowCells_self hndk
  rw [h1, normalizeRecord_eq hnd hg]
  simp only [List.map_append, List.map_map]
  congr 1
  · have : (Prod.snd ∘ fun fv : String × Value => (fv.1, serializeValue fv.2)) =
        (serializeValue ∘ Prod.snd) := rfl
    rw [this, ← List.map_map]
    exact congrArg (List.map serializeValue)
      (List.map_snd_zip fieldNames row.vals (by omega))

theorem map_eq_self_iff_forall {α : Type} (g : α → α) (l : List α) :
    l.map g = l ↔ ∀ x ∈ l, g x = x := by
  induction l with
  | nil => simp
  | cons a t ih => simp [ih]

theorem serializeValue_eq_self_iff (v : Value) :
    serializeValue v = v ↔ ∀ t : PyDateTime, v ≠ Value.dt t := by
  cases v <;> simp [serializeValue]

/-! ## Claims C1 and C2: fault handling at the orchestrator boundary -/

/-- C1, counterexample: a request with every required field blank does
not fail with a `MissingInput` classification before any I/O — the
orchestrator has no blank-field validation at all.  The trace of the run
is non-empty: it performs an existence check on the joined (empty)
source path, and the outcome is the not-found report. -/
theorem C1_blank_request_does_io_cex :
    (export_feature_class envAbsent reqBlank).1 = [.existsCheck ""]
    ∧ (export_feature_class envAbsent reqBlank).1 ≠ ([] : List Event)
    ∧ (export_feature_class envAbsent reqBlank).2 = .notFound "" := by
  exact ⟨rfl, fun h => List.cons_ne_nil _ _ h, rfl⟩

/-- C1, amended: the orchestrator performs no blank-field validation and
has no `MissingInput` outcome.  A request with all four required fields
blank goes straight to the source existence check; when the joined blank
path does not exist the export ends with the not-found report, and no
directory is created, no schema is read, and no file is written. -/
theorem C1_blank_request_notfound_no_output (env : Env) (req : Request)
    (hp : req.fc_path = "") (hn : req.fc_name = "")
    (ht : req.export_type = "") (hd : req.output_dir = "")
    (hex : env.arcpyExists "" = false) :
    (export_feature_class env req).2 = .notFound ""
    ∧ (export_feature_class env req).1 = [.existsCheck ""]
    ∧ makesDir (export_feature_class env req).1 = false
    ∧ readsSchema (export_feature_class env req).1 = false
    ∧ writesFile (export_feature_class env req).1 = false := by
  have hjoin : pyJoin req.fc_path req.fc_name = "" := by
    rw [hp, hn]
    rfl
  have he := export_early_return env req (by rw [hjoin]; exact hex)
  rw [hjoin] at he
  rw [he]
  exact ⟨rfl, rfl, rfl, rfl, rfl⟩

/-- C1, witness: the blank request against the never-exists environment.
-/
theorem C1_blank_request_witness :
    (export_feature_class envAbsent reqBlank).2 = .notFound ""
    ∧ (export_feature_class envAbsent reqBlank).1 = [.existsCheck ""]
    ∧ makesDir (export_feature_class envAbsent reqBlank).1 = false
    ∧ readsSchema (export_feature_class envAbsent reqBlank).1 = false
    ∧ writesFile (export_feature_class envAbsent reqBlank).1 = false :=
  C1_blank_request_notfound_no_output envAbsent reqBlank rfl rfl rfl rfl rfl

/-- C2, counterexample: a filesystem fault while creating the output
directory is raised by `os.makedirs` on line 38, before the `try` block
on line 44, so it escapes `export_feature_class` uncaught instead of
being converted to a reported result. -/
theorem C2_makedirs_fault_escapes_cex :
    (export_feature_class envMkdirFail reqCsv).2 = .uncaught "disk full" := by
  rfl

/-- C2, amended: faults raised inside the guarded cursor/encode/write
region (lines 44-95) are caught by the `except` clauses and reported as
a single result, but a filesystem fault while creating the output
directory (line 38) and a fault while enumerating the source schema
(line 40) occur before the `try` block and escape uncaught to the
caller. -/
theorem C2_fault_boundary (env : Env) (req : Request) (m : String)
    (hex : env.arcpyExists (pyJoin req.fc_path req.fc_name) = true) :
    (env.pathExists req.output_dir = false →
      env.makedirs req.output_dir = .error m →
      (export_feature_class env req).2 = .uncaught m)
    ∧ (env.pathExists req.output_dir = true →
      env.listFields (pyJoin req.fc_path req.fc_name) = .error m →
      (export_feature_class env req).2 = .uncaught m)
    ∧ (∀ names : List String, env.pathExists req.output_dir = true →
      env.listFields (pyJoin req.fc_path req.fc_name) = .ok names →
      env.searchCursor (pyJoin req.fc_path req.fc_name) = .error m →
      (export_feature_class env req).2 = .errorCaught m)
    ∧ (∀ (names : List String) (rows : List Row),
      env.pathExists req.output_dir = true →
      env.listFields (pyJoin req.fc_path req.fc_name) = .ok names →
      env.searchCursor (pyJoin req.fc_path req.fc_name) = .ok rows →
      rows ≠ [] →
      (req.export_type = "geojson" ∨ req.export_type = "json" ∨
        req.export_type = "csv") →
      env.writeFile (output_file_for req env.now) = .error m →
      (export_feature_class env req).2 = .errorCaught m) := by
  refine ⟨?_, ?_, ?_, ?_⟩
  · intro hdir hmk
    simp [export_feature_class, validate_feature_class, hex, hdir, hmk]
  · intro hdir hlf
    simp [export_feature_class, validate_feature_class, hex, hdir, hlf]
  · intro names hdir hlf hcur
    simp [export_feature_class, validate_feature_class, exportTryBlock,
      hex, hdir, hlf, hcur]
  · intro names rows hdir hlf hcur hne hfmt hw
    have hfe : pipelineFeatures names rows ≠ [] := by
      simp only [pipelineFeatures, ne_eq, List.map_eq_nil_iff]
      exact hne
    rcases hfmt with h | h | h <;>
      simp [export_feature_class, validate_feature_class, exportTryBlock,
        exportWrite, hex, hdir, hlf, hcur, hfe, h, hw]

/-- C2, witness: a cursor fault is caught and reported; a makedirs fault
escapes. -/
theorem C2_fault_boundary_witness :
    (export_feature_class envCursorFail reqCsv).2 = .errorCaught "cursor broke"
    ∧ (export_feature_class envMkdirFail reqCsv).2 = .uncaught "disk full" := by
  constructor
  · exact (C2_fault_boundary envCursorFail reqCsv "cursor broke" rfl).2.2.1
      ["id", "name", "created"] rfl rfl rfl
  · exact (C2_fault_boundary envMkdirFail reqCsv "disk full" rfl).1 rfl rfl

/-! ## Claim C3: the record normalizer -/

/-- C3, counterexample: `serialize_feature` assigns the converted value
into the dict it was given (`feature[key] = value.isoformat()`), so the
caller's record is mutated whenever it contains a datetime value — the
post-call state of the argument differs from the record that was passed
in. -/
theorem C3_serialize_mutates_cex :
    (serialize_feature_call [("created", Value.dt t2024)]).2 ≠
      [("created", Value.dt t2024)] := by
  decide

/-- C3, amended: `serialize_feature` is a deterministic mapping of its
input — datetime values are replaced by their ISO-8601 strings, all
other values and all keys are untouched — but it is not free of side
effects: it converts in place, so after the call the argument holds the
converted record (equal to the return value), and the argument is left
unmodified exactly when the record held no datetime value. -/
theorem C3_serialize_behavior (f : Record) :
    (serialize_feature_call f).1 =
      f.map (fun kv => (kv.1, serializeValue kv.2))
    ∧ (serialize_feature_call f).2 = (serialize_feature_call f).1
    ∧ ((serialize_feature_call f).2 = f ↔
        ∀ kv ∈ f, ∀ t : PyDateTime, kv.2 ≠ Value.dt t) := by
  refine ⟨rfl, rfl, ?_⟩
  unfold serialize_feature_call serialize_feature
  rw [map_eq_self_iff_forall]
  constructor
  · intro h kv hm t
    have hkv := h kv hm
    have hv : serializeValue kv.2 = kv.2 := by
      have := congrArg Prod.snd hkv
      simpa using this
    exact (serializeValue_eq_self_iff kv.2).mp hv t
  · intro h kv hm
    have hv : serializeValue kv.2 = kv.2 :=
      (serializeValue_eq_self_iff kv.2).mpr (h kv hm)
    rw [hv]

/-- C3, witness: the argument after the call equals the returned record
on a concrete one-field record. -/
theorem C3_serialize_behavior_witness :
    (serialize_feature_call [("created", Value.dt t2024)]).2 =
      (serialize_feature_call [("created", Value.dt t2024)]).1 :=
  (C3_serialize_behavior [("created", Value.dt t2024)]).2.1

/-! ## Claim C4: output path determinism and derived-name collisions -/

/-- C4, counterexample: two distinct timestamps inside the same
wall-clock second (they differ by one microsecond) produce the same
derived filename, because `strftime('%Y%m%d_%H%M%S')` formats only down
to whole seconds — so exports with no `output_name` issued at different
timestamps can collide. -/
theorem C4_same_second_collision_cex :
    t2024 ≠ t2024'
    ∧ derived_filename "a" t2024 = derived_filename "a" t2024' := by
  exact ⟨by decide, rfl⟩

/-- C4, amended: two exports with the same directory, format and
explicit non-empty `output_name` write to the same output path whatever
their timestamps; and two exports with no `output_name` whose timestamps
differ after truncation to whole seconds derive distinct filenames, for
any pair of source identifiers (exports within the same second may
collide). -/
theorem C4_filename_determinism :
    (∀ (req : Request) (t1 t2 : PyDateTime) (s : String),
      req.custom_filename = some s → s.isEmpty = false →
      output_file_for req t1 = output_file_for req t2)
    ∧ (∀ (n1 n2 : String) (t1 t2 : PyDateTime),
      t1.InRange → t2.InRange → t1.truncSec ≠ t2.truncSec →
      derived_filename n1 t1 ≠ derived_filename n2 t2) := by
  constructor
  · intro req t1 t2 s hcf hemp
    unfold output_file_for resolvedFilename
    rw [hcf]
    simp [hemp]
  · intro n1 n2 t1 t2 h1 h2 hne h
    exact hne (derived_filename_trunc_eq h1 h2 h)

/-- C4, witness: an explicit name is timestamp-independent, and derived
names one second apart differ. -/
theorem C4_filename_determinism_witness :
    output_file_for ⟨"", "fc", "csv", "dir", some "name"⟩ t2024 =
      output_file_for ⟨"", "fc", "csv", "dir", some "name"⟩ t2024'
    ∧ derived_filename "a" t2024 ≠
      derived_filename "b" ⟨2024, 1, 1, 0, 0, 1, 0⟩ := by
  constructor
  · exact C4_filename_determinism.1 ⟨"", "fc", "csv", "dir", some "name"⟩
      t2024 t2024' "name" rfl rfl
  · exact C4_filename_determinism.2 "a" "b" t2024 ⟨2024, 1, 1, 0, 0, 1, 0⟩
      (by decide) (by decide) (by decide)

/-! ## Claims C5-C8: encoders -/

/-- C5: for a source yielding N ≥ 1 rows, each encoder produces exactly
N elements — N CSV data rows, N JSON array objects, N GeoJSON features —
and the elements are the normalized records in cursor order. -/
theorem C5_encoder_counts (schemaFields : List String) (rows : List Row)
    (hne : rows ≠ []) :
    (pipelineFeatures schemaFields rows).length = rows.length
    ∧ jsonEncode (pipelineFeatures schemaFields rows) =
        .jarr (rows.map (fun r => recordToJson (normalizeRecord schemaFields r)))
    ∧ geojsonEncode (pipelineFeatures schemaFields rows) =
        .jobj [("type", .jstr "FeatureCollection"),
          ("features", .jarr (rows.map (fun r =>
            featureToJson (normalizeRecord schemaFields r))))]
    ∧ csvDataRows (pipelineFeatures schemaFields rows) =
        rows.map (fun r => csvRowCells
          (csvFieldnames (pipelineFeatures schemaFields rows))
          (normalizeRecord schemaFields r))
    ∧ (csvDataRows (pipelineFeatures schemaFields rows)).length = rows.length := by
  refine ⟨?_, ?_, ?_, ?_, ?_⟩ <;>
    simp [pipelineFeatures, jsonEncode, geojsonEncode, csvDataRows,
      List.map_map, Function.comp]

/-- C5, witness: the one-record scenario source. -/
theorem C5_encoder_counts_witness :
    (pipelineFeatures ["id", "name", "created"] [rowAlpha]).length =
      [rowAlpha].length
    ∧ (csvDataRows (pipelineFeatures ["id", "name", "created"] [rowAlpha])).length =
      [rowAlpha].length := by
  have h := C5_encoder_counts ["id", "name", "created"] [rowAlpha] (by decide)
  exact ⟨h.1, h.2.2.2.2⟩

/-- C6, counterexample: for a schema containing a field literally named
`geometry`, the dict assignment `feature["geometry"] = geometry`
overwrites the raw field value in place instead of appending a new key,
so the primitive value is not passed through unchanged and the geometry
entry is not appended after the schema fields. -/
theorem C6_normalize_overwrite_cex :
    normalizeRecord ["geometry"] ⟨[Value.num 5], Option.none⟩ =
      [("geometry", Value.none)]
    ∧ normalizeRecord ["geometry"] ⟨[Value.num 5], Option.none⟩ ≠
      ((["geometry"].zip [Value.num 5]).map
        (fun fv => (fv.1, serializeValue fv.2)) ++
        [("geometry", geomValue Option.none)]) := by
  exact ⟨rfl, by decide⟩

/-- C6, amended: provided the schema field names are pairwise distinct
and none of them is `geometry`, the normalized record is the schema
fields in order — timestamps replaced by their ISO-8601 strings, every
other value unchanged — followed by the geometry entry appended last;
its key list is the schema order plus a final `geometry` key. -/
theorem C6_normalize_shape (fieldNames : List String) (row : Row)
    (hnd : fieldNames.Nodup) (hg : "geometry" ∉ fieldNames)
    (hlen : row.vals.length = fieldNames.length) :
    normalizeRecord fieldNames row =
      (fieldNames.zip row.vals).map (fun fv => (fv.1, serializeValue fv.2)) ++
        [("geometry", geomValue row.geom)]
    ∧ (normalizeRecord fieldNames row).map Prod.fst =
        fieldNames ++ ["geometry"]
    ∧ (∀ t : PyDateTime, serializeValue (Value.dt t) = .str (isoformat t))
    ∧ (∀ v : Value, (∀ t : PyDateTime, v ≠ Value.dt t) → serializeValue v = v) := by
  refine ⟨normalizeRecord_eq hnd hg, normalizeRecord_keys hnd hg hlen,
    fun t => rfl, ?_⟩
  intro v hv
  exact (serializeValue_eq_self_iff v).mpr hv

/-- C6, witness: the scenario record keeps the schema key order with
`geometry` last. -/
theorem C6_normalize_shape_witness :
    (normalizeRecord ["id", "name", "created"] rowAlpha).map Prod.fst =
      ["id", "name", "created"] ++ ["geometry"] :=
  (C6_normalize_shape ["id", "name", "created"] rowAlpha
    (by decide) (by decide) rfl).2.1

/-- C7: the CSV output starts with the UTF-8 byte-order mark, its header
row is the key list of the first record — the schema field order with a
trailing `geometry` column — and each data row lists one record's values
in that column order, one row per record. -/
theorem C7_csv_structure (fieldNames : List String) (rows : List Row)
    (hnd : fieldNames.Nodup) (hg : "geometry" ∉ fieldNames) (hne : rows ≠ [])
    (hlen : ∀ r ∈ rows, r.vals.length = fieldNames.length) :
    (csvFileBytes (pipelineFeatures fieldNames rows)).take 3 = bomBytes
    ∧ csvFieldnames (pipelineFeatures fieldNames rows) =
        fieldNames ++ ["geometry"]
    ∧ csvDataRows (pipelineFeatures fieldNames rows) =
        rows.map (fun r => r.vals.map serializeValue ++ [geomValue r.geom]) := by
  have hfn : csvFieldnames (pipelineFeatures fieldNames rows) =
      fieldNames ++ ["geometry"] := by
    obtain ⟨r0, rest, rfl⟩ := List.exists_cons_of_ne_nil hne
    show ((pipelineFeatures fieldNames (r0 :: rest)).headD []).map Prod.fst = _
    simp only [pipelineFeatures, List.map_cons, List.headD_cons]
    exact normalizeRecord_keys hnd hg (hlen r0 (List.mem_cons_self _ _))
  refine ⟨?_, hfn, ?_⟩
  · show (bomBytes ++ _).take 3 = bomBytes
    rw [show (3 : Nat) = bomBytes.length from rfl, List.take_left]
  · unfold csvDataRows
    rw [hfn]
    unfold pipelineFeatures
    rw [List.map_map]
    apply List.map_congr_left
    intro r hr
    exact csvRow_normalized hnd hg (hlen r hr)

/-- C7, witness: the one-record scenario CSV starts with the byte-order
mark. -/
theorem C7_csv_structure_witness :
    (csvFileBytes (pipelineFeatures ["id", "name", "created"] [rowAlpha])).take 3 =
      bomBytes :=
  (C7_csv_structure ["id", "name", "created"] [rowAlpha]
    (by decide) (by decide) (by decide) (by decide)).1

/-- C8: the GeoJSON output is an object with type `FeatureCollection`
whose features array holds, in input order, one Feature per record, its
geometry member the record's normalized geometry or JSON null, and its
properties object every non-geometry key in original field order; a
record without geometry encodes to a null geometry member without
fault. -/
theorem C8_geojson_structure (fieldNames : List String) (rows : List Row)
    (hnd : fieldNames.Nodup) (hg : "geometry" ∉ fieldNames) (hne : rows ≠ []) :
    geojsonEncode (pipelineFeatures fieldNames rows) =
      .jobj [("type", .jstr "FeatureCollection"),
        ("features", .jarr (rows.map (fun r =>
          .jobj [("type", .jstr "Feature"),
            ("geometry", geomJson r.geom),
            ("properties", .jobj ((fieldNames.zip r.vals).map
              (fun fv => (fv.1, valueToJson (serializeValue fv.2)))))])))]
    ∧ geomJson Option.none = Json.jnull := by
  refine ⟨?_, rfl⟩
  unfold geojsonEncode pipelineFeatures
  rw [List.map_map]
  have hmap : rows.map (featureToJson ∘ normalizeRecord fieldNames) =
      rows.map (fun r =>
        Json.jobj [("type", .jstr "Feature"),
          ("geometry", geomJson r.geom),
          ("properties", .jobj ((fieldNames.zip r.vals).map
            (fun fv => (fv.1, valueToJson (serializeValue fv.2)))))]) :=
    List.map_congr_left (fun r _ => featureToJson_normalized hnd hg)
  rw [hmap]

/-- C8, witness: a record without geometry yields the null geometry
member. -/
theorem C8_geojson_structure_witness :
    geomJson Option.none = Json.jnull :=
  (C8_geojson_structure ["id", "name", "created"]
    [⟨[Value.num 1, Value.str "Alpha", Value.dt t2024], Option.none⟩]
    (by decide) (by decide) (by decide)).2

/-! ## Claims C9 and C10: source resolution and format dispatch -/

/-- C9: when the source identifier does not resolve within the location,
the export ends with the not-found report and the trace holds only the
existence check — no directory is created, the schema is not read, and
no file is written. -/
theorem C9_notfound_no_side_effects (env : Env) (req : Request)
    (h : env.arcpyExists (pyJoin req.fc_path req.fc_name) = false) :
    (export_feature_class env req).2 =
      .notFound (pyJoin req.fc_path req.fc_name)
    ∧ (export_feature_class env req).1 =
      [.existsCheck (pyJoin req.fc_path req.fc_name)]
    ∧ makesDir (export_feature_class env req).1 = false
    ∧ readsSchema (export_feature_class env req).1 = false
    ∧ writesFile (export_feature_class env req).1 = false := by
  have he := export_early_return env req h
  rw [he]
  exact ⟨rfl, rfl, rfl, rfl, rfl⟩

/-- C9, witness: a nonexistent source under an ordinary request. -/
theorem C9_notfound_no_side_effects_witness :
    (export_feature_class envAbsent reqCsv).2 =
      .notFound (pyJoin reqCsv.fc_path reqCsv.fc_name)
    ∧ writesFile (export_feature_class envAbsent reqCsv).1 = false := by
  have h := C9_notfound_no_side_effects envAbsent reqCsv rfl
  exact ⟨h.1, h.2.2.2.2⟩

/-- C10: a request whose format is none of csv, json, geojson, over a
source with at least one record, falls through every encoder branch —
no file write occurs — and still reaches the success reporting, whose
status names the output path that was never written. -/
theorem C10_unknown_format_false_success (env : Env) (req : Request)
    (hex : env.arcpyExists (pyJoin req.fc_path req.fc_name) = true)
    (hdir : env.pathExists req.output_dir = true)
    (names : List String) (rows : List Row)
    (hlf : env.listFields (pyJoin req.fc_path req.fc_name) = .ok names)
    (hcur : env.searchCursor (pyJoin req.fc_path req.fc_name) = .ok rows)
    (hne : rows ≠ [])
    (h1 : req.export_type ≠ "geojson") (h2 : req.export_type ≠ "json")
    (h3 : req.export_type ≠ "csv") :
    (export_feature_class env req).2 =
      .success (successStatus req.export_type (output_file_for req env.now))
        (output_file_for req env.now)
    ∧ writesFile (export_feature_class env req).1 = false := by
  have hfe : pipelineFeatures names rows ≠ [] := by
    simp only [pipelineFeatures, ne_eq, List.map_eq_nil_iff]
    exact hne
  constructor <;>
    simp [export_feature_class, validate_feature_class, exportTryBlock,
      exportWrite, hex, hdir, hlf, hcur, hfe, h1, h2, h3, writesFile,
      isFileWriteEv]

/-- C10, witness: an `xml` request over the scenario source reports
success without any file write. -/
theorem C10_unknown_format_false_success_witness :
    (export_feature_class envOk reqXml).2 =
      .success (successStatus reqXml.export_type (output_file_for reqXml t2024))
        (output_file_for reqXml t2024)
    ∧ writesFile (export_feature_class envOk reqXml).1 = false :=
  C10_unknown_format_false_success envOk reqXml rfl rfl
    ["id", "name", "created"] [rowAlpha] rfl rfl (by decide)
    (by decide) (by decide) (by decide)

end FCExport
